import Mathlib

/-!
Verification of the ferries coaching-program domain layer.

The embedding translates the Rust sources:
  * `src/models/tasks.rs`     — task lifecycle (status derivation, guards)
  * `src/models/sessions.rs`  — session lifecycle (status derivation, guards)
  * `src/services/programs.rs`    — program hierarchy service
  * `src/services/enrollments.rs` — enrollment admission controller

Rust `NaiveDateTime` values are modelled as integers (a timeline of
instants); optional columns become `Option`; the MySQL connection becomes
an explicit in-memory database value `Db` threaded through the service
functions; diesel `first(..)` queries become `List.find?` and the
`eq_any` sub-select becomes list membership.  DB-managed timestamp
columns (`created_at`, `updated_at`) are modelled as integers fixed to 0
at insert time, since no business rule reads them.
-/

/-- Modelled from the spec: the temporal utility `is_past_date` of the
temporal/status utilities component (its source file `commons/util.rs` is
not part of the provided sources).  A date is past when it is strictly
before the current instant, which we pass explicitly as `now`. -/
def is_past_date (now d : Int) : Bool := decide (d < now)

namespace Tasks

/-- Derived display states of a task, from the `Status` enum of
`src/models/tasks.rs`. -/
inductive Status
  | PLANNED
  | CANCELLED
  | DUE
  | DELAY
  | PROGRESS
  | RESPONDED
  | DONE
deriving DecidableEq

/-- The `Task` entity of `src/models/tasks.rs`. -/
structure Task where
  id : String
  enrollment_id : String
  actor_id : String
  name : String
  duration : Int
  min : Int
  max : Int
  original_start_date : Int
  original_end_date : Int
  revised_start_date : Option Int
  revised_end_date : Option Int
  offered_start_date : Option Int
  offered_end_date : Option Int
  actual_start_date : Option Int
  actual_end_date : Option Int
  locked : Bool
  created_at : Int
  updated_at : Int
  description : Option String
  closing_notes : Option String
  response : Option String
  approved_at : Option Int
  cancelled_at : Option Int
  responded_date : Option Int
deriving DecidableEq

/-- `Task::status` of `src/models/tasks.rs` (lines 129-158): a chain of
early returns; `now` stands for the current instant consulted by
`util::is_past_date`. -/
def Task.status (t : Task) (now : Int) : Status :=
  if t.cancelled_at.isSome then Status.CANCELLED
  else if t.actual_end_date.isSome then Status.DONE
  else if t.responded_date.isSome then Status.RESPONDED
  else if is_past_date now (t.revised_end_date.getD t.original_end_date) then Status.DELAY
  else if t.actual_start_date.isSome then Status.PROGRESS
  else if is_past_date now (t.revised_start_date.getD t.original_start_date) then Status.DUE
  else Status.PLANNED

/-- `Task::can_start` of `src/models/tasks.rs`. -/
def Task.can_start (t : Task) : Bool :=
  t.actual_start_date.isNone && t.responded_date.isNone && t.cancelled_at.isNone && t.actual_end_date.isNone

/-- `Task::can_respond` of `src/models/tasks.rs`. -/
def Task.can_respond (t : Task) : Bool :=
  t.cancelled_at.isNone && t.actual_end_date.isNone && t.responded_date.isNone && t.actual_start_date.isSome

/-- `Task::can_finish` of `src/models/tasks.rs` (lines 196-198). -/
def Task.can_finish (t : Task) : Bool :=
  t.actual_start_date.isSome && t.response.isSome && t.cancelled_at.isNone && t.responded_date.isNone && t.actual_end_date.isNone

/-- `Task::can_complete` of `src/models/tasks.rs`. -/
def Task.can_complete (t : Task) : Bool :=
  t.actual_end_date.isNone && t.cancelled_at.isNone && t.responded_date.isSome

/-- `Task::can_cancel` of `src/models/tasks.rs`. -/
def Task.can_cancel (t : Task) : Bool :=
  t.actual_end_date.isNone && t.cancelled_at.isNone

/-- `Task::can_reopen` of `src/models/tasks.rs` (lines 208-210). -/
def Task.can_reopen (t : Task) : Bool :=
  t.responded_date.isSome

end Tasks

/-- First match in an ordered list of (condition, state) rules; the
spec-side formulation of strict-precedence status derivation. -/
def firstMatch {α : Type} (rules : List (Bool × α)) (dflt : α) : α :=
  match rules with
  | [] => dflt
  | (c, s) :: rest => if c then s else firstMatch rest dflt

/-- Spec-side task status: the first match in the strict precedence order
CANCELLED ≻ DONE ≻ RESPONDED ≻ DELAY ≻ PROGRESS ≻ DUE ≻ PLANNED, where
the effective start/end date is the revised value if present, else the
original. -/
def taskStatusSpec (t : Tasks.Task) (now : Int) : Tasks.Status :=
  firstMatch
    [ (t.cancelled_at.isSome, Tasks.Status.CANCELLED),
      (t.actual_end_date.isSome, Tasks.Status.DONE),
      (t.responded_date.isSome, Tasks.Status.RESPONDED),
      (is_past_date now (t.revised_end_date.getD t.original_end_date), Tasks.Status.DELAY),
      (t.actual_start_date.isSome, Tasks.Status.PROGRESS),
      (is_past_date now (t.revised_start_date.getD t.original_start_date), Tasks.Status.DUE) ]
    Tasks.Status.PLANNED

/-- C5: for every task value, the derived status is the first match in the
strict precedence order CANCELLED ≻ DONE ≻ RESPONDED ≻ DELAY ≻ PROGRESS ≻
DUE ≻ PLANNED, with effective start/end = revised date if present else
original; in particular a task with both `cancelled_at` and
`actual_end_date` set reports CANCELLED, and a started task whose
effective end is past reports DELAY rather than PROGRESS. -/
theorem task_status_follows_precedence (t : Tasks.Task) (now : Int) :
    t.status now = taskStatusSpec t now := by
  simp only [Tasks.Task.status, taskStatusSpec, firstMatch]

/-- A concrete task that has started, has a response text, is not
cancelled, has not responded — and has already finished
(`actual_end_date` set). -/
def finishedTask : Tasks.Task :=
  { id := "t1", enrollment_id := "e1", actor_id := "a1", name := "n",
    duration := 1, min := 0, max := 0,
    original_start_date := 0, original_end_date := 1,
    revised_start_date := none, revised_end_date := none,
    offered_start_date := none, offered_end_date := none,
    actual_start_date := some 0, actual_end_date := some 1,
    locked := false, created_at := 0, updated_at := 0,
    description := none, closing_notes := none,
    response := some "done", approved_at := none,
    cancelled_at := none, responded_date := none }

/-- C6 counterexample: `finishedTask` has started, has a response text,
is not cancelled and has not responded, yet `can_finish` rejects it
because its `actual_end_date` is set — refuting the claim that the four
listed conditions are exactly equivalent to `can_finish`. -/
theorem can_finish_needs_unfinished_cex :
    (finishedTask.actual_start_date.isSome && finishedTask.response.isSome
      && finishedTask.cancelled_at.isNone && finishedTask.responded_date.isNone) = true
    ∧ finishedTask.can_finish = false := by
  exact ⟨rfl, rfl⟩

/-- C6 (amended): `can_finish` is true exactly when the task has started,
has a response text, is not cancelled, has not yet responded, AND has
not finished (`actual_end_date` unset). -/
theorem can_finish_characterization (t : Tasks.Task) :
    t.can_finish = true ↔
      (t.actual_start_date.isSome = true ∧ t.response.isSome = true
        ∧ t.cancelled_at = none ∧ t.responded_date = none ∧ t.actual_end_date = none) := by
  simp [Tasks.Task.can_finish, Option.isNone_iff_eq_none, and_assoc]

/-- C10: `can_reopen` depends only on `responded_date`: it is true exactly
when `responded_date` is set, regardless of `cancelled_at` or
`actual_end_date`. -/
theorem can_reopen_characterization (t : Tasks.Task) :
    t.can_reopen = true ↔ t.responded_date.isSome = true := by
  simp [Tasks.Task.can_reopen]

namespace Sessions

/-- Derived display states of a session, from the `Status` enum of
`src/models/sessions.rs`. -/
inductive Status
  | DONE
  | PROGRESS
  | CANCELLED
  | READY
  | OVERDUE
  | PLANNED
deriving DecidableEq

/-- The `Session` entity of `src/models/sessions.rs`. -/
structure Session where
  id : String
  name : String
  description : Option String
  program_id : String
  enrollment_id : String
  people : Option String
  duration : Int
  original_start_date : Int
  original_end_date : Int
  revised_start_date : Option Int
  revised_end_date : Option Int
  offered_start_date : Option Int
  offered_end_date : Option Int
  is_ready : Bool
  actual_start_date : Option Int
  actual_end_date : Option Int
  cancelled_at : Option Int
  created_at : Int
  updated_at : Int
  closing_notes : Option String
  is_request : Bool
  conference_id : Option String
  session_type : String
deriving DecidableEq

/-- `Session::isClosed` of `src/models/sessions.rs` (lines 102-112). -/
def Session.isClosed (s : Session) : Bool :=
  if s.cancelled_at.isSome then true
  else if s.actual_end_date.isSome then true
  else false

/-- `Session::status` of `src/models/sessions.rs` (lines 114-137). -/
def Session.status (s : Session) (now : Int) : Status :=
  if s.cancelled_at.isSome then Status.CANCELLED
  else if s.actual_end_date.isSome then Status.DONE
  else if s.actual_start_date.isSome then Status.PROGRESS
  else if s.is_ready then Status.READY
  else if is_past_date now (s.revised_start_date.getD s.original_start_date) then Status.OVERDUE
  else Status.PLANNED

/-- `Session::can_delete` of `src/models/sessions.rs` (lines 152-168). -/
def Session.can_delete (s : Session) : Bool :=
  if s.cancelled_at.isSome then false
  else if s.actual_start_date.isSome then false
  else if s.is_ready then false
  else true

/-- `Session::is_conference` of `src/models/sessions.rs`. -/
def Session.is_conference (s : Session) : Bool :=
  s.session_type == "multi"

end Sessions

/-- C8: for every session value, `can_delete` is true exactly when the
session is not cancelled, not started, and not ready. -/
theorem can_delete_characterization (s : Sessions.Session) :
    s.can_delete = true ↔
      (s.cancelled_at = none ∧ s.actual_start_date = none ∧ s.is_ready = false) := by
  simp only [Sessions.Session.can_delete]
  cases hc : s.cancelled_at <;> cases ha : s.actual_start_date <;> cases hr : s.is_ready <;>
    simp

/-- C9: for every session value, `isClosed` is true exactly when
`cancelled_at` is set or `actual_end_date` is set — equivalently, exactly
when the derived status is CANCELLED or DONE (at any evaluation
instant). -/
theorem isClosed_characterization (s : Sessions.Session) (now : Int) :
    (s.isClosed = true ↔ (s.cancelled_at.isSome = true ∨ s.actual_end_date.isSome = true))
    ∧ (s.isClosed = true ↔
        (s.status now = Sessions.Status.CANCELLED ∨ s.status now = Sessions.Status.DONE)) := by
  constructor
  · simp only [Sessions.Session.isClosed]
    cases hc : s.cancelled_at <;> cases he : s.actual_end_date <;> simp
  · simp only [Sessions.Session.isClosed, Sessions.Session.status]
    cases hc : s.cancelled_at <;> cases he : s.actual_end_date <;>
      cases ha : s.actual_start_date <;> cases hr : s.is_ready <;>
        split_ifs <;> simp

/-- Modelled from the spec: the `Program` entity (its model file
`src/models/programs.rs` is referenced by the services but not among the
provided sources).  Per §3 of the spec: identity, name/description, a
`coach_id`, an `active` flag, an `is_parent` flag, and an optional
`parent_program_id` whose absence marks the program as a root of a
family. -/
structure Program where
  id : String
  name : String
  description : Option String
  coach_id : String
  active : Bool
  is_parent : Bool
  parent_program_id : Option String
deriving DecidableEq

/-- Modelled from the spec: `Program::coalesce_parent_id` (defined in the
missing `src/models/programs.rs`) returns the program's own id if it is a
root, else its `parent_program_id`; this id identifies the family. -/
def Program.coalesce_parent_id (p : Program) : String :=
  match p.parent_program_id with
  | none => p.id
  | some pid => pid

/-- Modelled from the spec: a user record; only the identity and email
are consulted by the services under verification (the model file
`src/models/users.rs` is not among the provided sources). -/
structure User where
  id : String
  email : String
deriving DecidableEq

/-- Modelled from the spec: a coach record, looked up by id or by email;
the coaches table shares ids with users (the model file
`src/models/coaches.rs` is not among the provided sources). -/
structure Coach where
  id : String
  email : String
deriving DecidableEq

/-- The `Enrollment` entity of `src/models/enrollments.rs`: links one
member to one program and carries the `is_new` flag. -/
structure Enrollment where
  id : String
  program_id : String
  member_id : String
  created_at : Int
  updated_at : Int
  is_new : Bool
deriving DecidableEq

/-- The `NewEnrollmentRequest` input of `src/models/enrollments.rs`. -/
structure NewEnrollmentRequest where
  program_id : String
  user_id : String
  coach_id : String
deriving DecidableEq

/-- The `AssociateCoachRequest` input of `src/models/programs.rs`
(modelled from the spec: program id plus peer coach email). -/
structure AssociateCoachRequest where
  program_id : String
  peer_coach_email : String
deriving DecidableEq

/-- `ProgramTargetState` of `src/models/programs.rs` (modelled from the
spec: the two bulk state-change targets). -/
inductive ProgramTargetState
  | ACTIVATE
  | DEACTIVATE
deriving DecidableEq

/-- The `ChangeProgramStateRequest` input of `src/models/programs.rs`
(modelled from the spec: program id plus target state). -/
structure ChangeProgramStateRequest where
  id : String
  target_state : ProgramTargetState
deriving DecidableEq

/-- The in-memory stand-in for the MySQL connection: the tables consulted
by the two services, a fresh fuzzy id to be used by the next insert, and
an oracle flag telling whether the mail collaborator succeeds. -/
structure Db where
  users : List User
  coaches : List Coach
  programs : List Program
  enrollments : List Enrollment
  fresh_id : String
  mail_ok : Bool
deriving DecidableEq

/-- Error text `WARNING` of `src/services/enrollments.rs` — the
`AlreadyEnrolled` business error. -/
def WARNING : String :=
  "It seems the user have already enrolled in this program or in a similar program offered by a peer coach."

/-- Error text `ERROR_003` of `src/services/enrollments.rs`. -/
def ERROR_003 : String := "Error in finding enrollment for the program and member. Error-003."

/-- Error text `INVALID_PROGRAM` of `src/services/programs.rs`. -/
def INVALID_PROGRAM : String := "Invalid Program Id. Error:001."

/-- Error text `PROGRAM_STATE_CHANGE_ERROR` of `src/services/programs.rs`
— also the error returned when the program is not a root
(`NotARootProgram` in the spec's vocabulary). -/
def PROGRAM_STATE_CHANGE_ERROR : String := "Unable to change the state of the program"

/-- Error text `PROGRAM_SAME_STATE_ERROR` of `src/services/programs.rs` —
the `AlreadyInState` business error. -/
def PROGRAM_SAME_STATE_ERROR : String := "Program is already in the target state."

/-- Error text `COACH_WAS_ASSOCIATED` of `src/services/programs.rs`. -/
def COACH_WAS_ASSOCIATED : String := "The coach is already associated"

/-- Error text `COACH_WAS_A_MEMBER` of `src/services/programs.rs` — the
`CoachWasMember` business error. -/
def COACH_WAS_A_MEMBER : String :=
  "The coach was a member of this program in the past. To avoid conflict in roles, please use a different credential."

/-- Modelled from the spec: error for a failed member lookup
(`MemberNotFound`); `src/services/users.rs` is not among the provided
sources. -/
def MEMBER_NOT_FOUND : String := "Member Not Found"

/-- Modelled from the spec: error for a failed coach-by-email lookup
(`InvalidCoach`); `src/services/users.rs` is not among the provided
sources. -/
def INVALID_COACH : String := "Invalid Coach"

/-- Modelled from the spec: error surfaced when the mail collaborator
fails; `src/services/correspondences.rs` is not among the provided
sources. -/
def MAIL_ERROR : String := "Error in creating mail"

/-- Modelled from the spec: `users::find` resolves a member by id,
failing when no such user exists (`src/services/users.rs` is not among
the provided sources). -/
def users_find (db : Db) (uid : String) : Except String User :=
  match db.users.find? (fun u => u.id == uid) with
  | some u => Except.ok u
  | none => Except.error MEMBER_NOT_FOUND

/-- Modelled from the spec: `users::find_coach_by_email` resolves a coach
by email, failing when no such coach exists (`src/services/users.rs` is
not among the provided sources). -/
def find_coach_by_email (db : Db) (mail : String) : Except String Coach :=
  match db.coaches.find? (fun c => c.email == mail) with
  | some c => Except.ok c
  | none => Except.error INVALID_COACH

/-- Modelled from the spec: `correspondences::create_mail` composes and
queues a notification; we track only whether it succeeds, via the
`mail_ok` oracle of the database value (`src/services/correspondences.rs`
is not among the provided sources). -/
def create_mail (db : Db) : Except String Nat :=
  if db.mail_ok then Except.ok 1 else Except.error MAIL_ERROR

/-- `programs::find` of `src/services/programs.rs` (lines 24-32): first
program whose id matches, else `INVALID_PROGRAM`. -/
def programs_find (db : Db) (the_id : String) : Except String Program :=
  match db.programs.find? (fun p => p.id == the_id) with
  | some p => Except.ok p
  | none => Except.error INVALID_PROGRAM

/-- `gate_prior_enrollment` of `src/services/enrollments.rs` (lines
75-85): the sub-select gathers the ids of programs whose
`parent_program_id` equals the family id of the given program, and the
gate fails with `WARNING` when the member holds an enrollment in any of
those programs. -/
def gate_prior_enrollment (db : Db) (program : Program) (user : User) : Except String Bool :=
  let famIds := (db.programs.filter
      (fun p => p.parent_program_id == some program.coalesce_parent_id)).map (fun p => p.id)
  match db.enrollments.find? (fun e => e.member_id == user.id && famIds.contains e.program_id) with
  | none => Except.ok true
  | some _ => Except.error WARNING

/-- `insert_enrollment` of `src/services/enrollments.rs` (lines 39-48):
appends a row built by `NewEnrollment::from` — fresh fuzzy id, the
program's id and the member's id, `is_new` defaulted to true.  The
persistence-failure branch (`ERROR_002`) is an opaque lower-layer fault
and is not modelled: inserts succeed. -/
def insert_enrollment (db : Db) (program : Program) (user : User) : Db :=
  { db with enrollments := db.enrollments ++
      [{ id := db.fresh_id, program_id := program.id, member_id := user.id,
         created_at := 0, updated_at := 0, is_new := true }] }

/-- `enrollments::find` of `src/services/enrollments.rs` (lines 87-95):
first enrollment matching (program, member), else `ERROR_003`. -/
def find_enrollment (db : Db) (program : Program) (user : User) : Except String Enrollment :=
  match db.enrollments.find? (fun e => e.program_id == program.id && e.member_id == user.id) with
  | some e => Except.ok e
  | none => Except.error ERROR_003

/-- `create_new_enrollment` of `src/services/enrollments.rs` (lines
23-37): resolve member and program, run the admission gate, insert,
re-read the enrollment, resolve the coach, and send the self-enrollment
mail; every step short-circuits with its error, the mail step included
(the `?` on line 34). -/
def create_new_enrollment (db : Db) (request : NewEnrollmentRequest) :
    Db × Except String Enrollment :=
  match users_find db request.user_id with
  | Except.error e => (db, Except.error e)
  | Except.ok user =>
  match programs_find db request.program_id with
  | Except.error e => (db, Except.error e)
  | Except.ok program =>
  match gate_prior_enrollment db program user with
  | Except.error e => (db, Except.error e)
  | Except.ok _ =>
  let db1 := insert_enrollment db program user
  match find_enrollment db1 program user with
  | Except.error e => (db1, Except.error e)
  | Except.ok enrollment =>
  match users_find db1 program.coach_id with
  | Except.error e => (db1, Except.error e)
  | Except.ok _coach =>
  match create_mail db1 with
  | Except.error e => (db1, Except.error e)
  | Except.ok _ => (db1, Except.ok enrollment)

/-- Modelled from the spec: `NewProgram::from_parent_program` (defined in
the missing `src/models/programs.rs`): the spawned program copies the
root's name/description, takes the peer coach as owner, points
`parent_program_id` at the root, has `is_parent = false`, and defaults
`active` from the root; its fresh fuzzy id is the database value's
`fresh_id`. -/
def NewProgram_from_parent_program (fresh : String) (parent : Program) (coach : Coach) : Program :=
  { id := fresh, name := parent.name, description := parent.description,
    coach_id := coach.id, active := parent.active,
    is_parent := false, parent_program_id := some parent.id }

/-- `insert_program` of `src/services/programs.rs` (lines 126-134):
appends the new program row and re-reads it by identity.  The
persistence-failure branch (`PROGRAM_CREATION_ERROR`) is an opaque
lower-layer fault and is not modelled: inserts succeed. -/
def insert_program (db : Db) (new_program : Program) : Db × Except String Program :=
  let db1 := { db with programs := db.programs ++ [new_program] }
  (db1, programs_find db1 new_program.id)

/-- `gate_past_member` of `src/services/programs.rs` (lines 79-91): the
sub-select gathers the ids of programs whose `parent_program_id` equals
the family id of the given program, and the gate fails with
`COACH_WAS_A_MEMBER` when the peer coach holds an enrollment (as member)
in any of those programs. -/
def gate_past_member (db : Db) (given_program : Program) (coach : Coach) : Except String Unit :=
  let famIds := (db.programs.filter
      (fun p => p.parent_program_id == some given_program.coalesce_parent_id)).map (fun p => p.id)
  match db.enrollments.find? (fun e => e.member_id == coach.id && famIds.contains e.program_id) with
  | some _ => Except.error COACH_WAS_A_MEMBER
  | none => Except.ok ()

/-- `gate_already_associated` of `src/services/programs.rs` (lines
93-104): fails with `COACH_WAS_ASSOCIATED` when a program owned by the
peer coach already exists with `parent_program_id` equal to the family
id. -/
def gate_already_associated (db : Db) (given_program : Program) (coach : Coach) : Except String Unit :=
  match db.programs.find? (fun p =>
      p.coach_id == coach.id && p.parent_program_id == some given_program.coalesce_parent_id) with
  | some _ => Except.error COACH_WAS_ASSOCIATED
  | none => Except.ok ()

/-- `associate_coach` of `src/services/programs.rs` (lines 63-77):
resolve the peer coach by email, resolve the given program, run the two
gates, resolve the family root, and insert the spawned program built by
`NewProgram::from_parent_program`; every step short-circuits with its
error. -/
def associate_coach (db : Db) (request : AssociateCoachRequest) : Db × Except String Program :=
  match find_coach_by_email db request.peer_coach_email with
  | Except.error e => (db, Except.error e)
  | Except.ok coach =>
  match programs_find db request.program_id with
  | Except.error e => (db, Except.error e)
  | Except.ok given_program =>
  match gate_past_member db given_program coach with
  | Except.error e => (db, Except.error e)
  | Except.ok _ =>
  match gate_already_associated db given_program coach with
  | Except.error e => (db, Except.error e)
  | Except.ok _ =>
  match programs_find db given_program.coalesce_parent_id with
  | Except.error e => (db, Except.error e)
  | Except.ok parent_program =>
  insert_program db (NewProgram_from_parent_program db.fresh_id parent_program coach)

/-- `validate_target_state` of `src/services/programs.rs` (lines
160-172): a non-root program is rejected with
`PROGRAM_STATE_CHANGE_ERROR`; a root already in the requested state is
rejected with `PROGRAM_SAME_STATE_ERROR`. -/
def validate_target_state (program : Program) (request : ChangeProgramStateRequest) :
    Except String Bool :=
  if !program.is_parent then Except.error PROGRAM_STATE_CHANGE_ERROR
  else if program.active && request.target_state == ProgramTargetState.ACTIVATE then
    Except.error PROGRAM_SAME_STATE_ERROR
  else if !program.active && request.target_state == ProgramTargetState.DEACTIVATE then
    Except.error PROGRAM_SAME_STATE_ERROR
  else Except.ok true

/-- The `active` value a target state stands for. -/
def targetActive : ProgramTargetState → Bool
  | ProgramTargetState.ACTIVATE => true
  | ProgramTargetState.DEACTIVATE => false

/-- `change_program_state` of `src/services/programs.rs` (lines 142-158):
re-read the program, validate the target state against it, then bulk
update `active` on every program whose `parent_program_id` equals the
requested id, returning the number of rows the update filter matched. -/
def change_program_state (db : Db) (request : ChangeProgramStateRequest) :
    Db × Except String Nat :=
  match programs_find db request.id with
  | Except.error e => (db, Except.error e)
  | Except.ok program =>
  match validate_target_state program request with
  | Except.error e => (db, Except.error e)
  | Except.ok _ =>
  let newActive := targetActive request.target_state
  let db1 := { db with programs := db.programs.map (fun p =>
      if p.parent_program_id == some request.id then { p with active := newActive } else p) }
  let n := (db.programs.filter (fun p => p.parent_program_id == some request.id)).length
  (db1, Except.ok n)

/-! Helper lemmas shared by the service-level theorems. -/

/-- When a member holds an enrollment in a program whose
`parent_program_id` equals the family id, the family-scoped enrollment
query used by both admission gates finds a row. -/
theorem family_enrollment_found (db : Db) (fam : String) (mid : String)
    (e : Enrollment) (p : Program)
    (he : e ∈ db.enrollments) (hm : e.member_id = mid)
    (hfp : p ∈ db.programs) (hpid : p.id = e.program_id)
    (hpar : p.parent_program_id = some fam) :
    (db.enrollments.find? (fun x => x.member_id == mid
        && ((db.programs.filter (fun q => q.parent_program_id == some fam)).map
              (fun q => q.id)).contains x.program_id)).isSome := by
  rw [List.find?_isSome]
  refine ⟨e, he, ?_⟩
  have hmemf : e.program_id ∈
      (db.programs.filter (fun q => q.parent_program_id == some fam)).map (fun q => q.id) :=
    List.mem_map.mpr ⟨p, List.mem_filter.mpr ⟨hfp, by simp [hpar]⟩, hpid⟩
  simp [hm, List.contains, hmemf]

/-- Unpacking `programs::find`: success exposes the underlying
`List.find?` result. -/
theorem programs_find_eq_some (db : Db) (the_id : String) (p : Program)
    (h : programs_find db the_id = Except.ok p) :
    db.programs.find? (fun q => q.id == the_id) = some p := by
  unfold programs_find at h
  cases hf : db.programs.find? (fun q => q.id == the_id) with
  | none => rw [hf] at h; exact absurd h (by simp)
  | some q => rw [hf] at h; rw [Except.ok.inj h]

/-- `validate_target_state` characterized through `targetActive`. -/
theorem validate_target_state_eq (q : Program) (req : ChangeProgramStateRequest) :
    validate_target_state q req =
      if q.is_parent = false then Except.error PROGRAM_STATE_CHANGE_ERROR
      else if q.active = targetActive req.target_state then Except.error PROGRAM_SAME_STATE_ERROR
      else Except.ok true := by
  cases ht : req.target_state <;> cases hq : q.is_parent <;> cases ha : q.active <;>
    simp [validate_target_state, targetActive, hq, ha, ht]

/-- `gate_prior_enrollment` rejects when the member already holds an
enrollment in a program whose `parent_program_id` equals the given
program's family id. -/
theorem gate_prior_enrollment_blocks (db : Db) (program : Program) (user : User)
    (e : Enrollment) (p : Program)
    (he : e ∈ db.enrollments) (hm : e.member_id = user.id)
    (hfp : p ∈ db.programs) (hpid : p.id = e.program_id)
    (hpar : p.parent_program_id = some program.coalesce_parent_id) :
    gate_prior_enrollment db program user = Except.error WARNING := by
  have h := family_enrollment_found db program.coalesce_parent_id user.id e p he hm hfp hpid hpar
  rw [Option.isSome_iff_exists] at h
  obtain ⟨x, hx⟩ := h
  unfold gate_prior_enrollment
  simp only [hx]

/-- `gate_past_member` rejects when the peer coach already holds an
enrollment in a program whose `parent_program_id` equals the given
program's family id. -/
theorem gate_past_member_blocks (db : Db) (program : Program) (coach : Coach)
    (e : Enrollment) (p : Program)
    (he : e ∈ db.enrollments) (hm : e.member_id = coach.id)
    (hfp : p ∈ db.programs) (hpid : p.id = e.program_id)
    (hpar : p.parent_program_id = some program.coalesce_parent_id) :
    gate_past_member db program coach = Except.error COACH_WAS_A_MEMBER := by
  have h := family_enrollment_found db program.coalesce_parent_id coach.id e p he hm hfp hpid hpar
  rw [Option.isSome_iff_exists] at h
  obtain ⟨x, hx⟩ := h
  unfold gate_past_member
  simp only [hx]

/-! Concrete fixtures used by the counterexamples and witnesses. -/

/-- A member. -/
def memberM : User := { id := "m", email := "m@example.com" }

/-- The root coach (as a user row). -/
def coachC1user : User := { id := "c1", email := "c1@example.com" }

/-- The peer coach (as a user row). -/
def coachC2user : User := { id := "c2", email := "c2@example.com" }

/-- The peer coach (as a coach row). -/
def coachC2 : Coach := { id := "c2", email := "c2@example.com" }

/-- A root program owned by coach c1. -/
def rootR : Program :=
  { id := "r", name := "Fitness", description := some "d", coach_id := "c1",
    active := true, is_parent := true, parent_program_id := none }

/-- A spawned peer program of `rootR`, owned by coach c2. -/
def peerR1 : Program :=
  { id := "r1", name := "Fitness", description := some "d", coach_id := "c2",
    active := true, is_parent := false, parent_program_id := some "r" }

/-- Member m enrolled in the root program. -/
def enrollMInRoot : Enrollment :=
  { id := "e0", program_id := "r", member_id := "m",
    created_at := 0, updated_at := 0, is_new := true }

/-- Member m enrolled in the spawned peer program. -/
def enrollMInPeer : Enrollment :=
  { id := "e1", program_id := "r1", member_id := "m",
    created_at := 0, updated_at := 0, is_new := true }

/-- Database for the C1 counterexample: member m already enrolled in the
root program r; the family also has the spawned peer r1. -/
def dbC1 : Db :=
  { users := [memberM, coachC1user, coachC2user], coaches := [coachC2],
    programs := [rootR, peerR1], enrollments := [enrollMInRoot],
    fresh_id := "f1", mail_ok := true }

/-- C1 counterexample request: enroll m into the peer program r1. -/
def reqC1 : NewEnrollmentRequest := { program_id := "r1", user_id := "m", coach_id := "c2" }

/-- C1 counterexample: member m holds an enrollment in the root program r
of the family, yet `create_new_enrollment` of m into the peer r1 succeeds
and inserts a second enrollment — the gate query only scans programs whose
`parent_program_id` equals the family id, which never matches the root
itself (its `parent_program_id` is absent). -/
theorem enrollment_root_prior_not_detected_cex :
    (create_new_enrollment dbC1 reqC1).2 =
      Except.ok { id := "f1", program_id := "r1", member_id := "m",
                  created_at := 0, updated_at := 0, is_new := true }
    ∧ (create_new_enrollment dbC1 reqC1).1.enrollments.length = 2 := by
  exact ⟨rfl, rfl⟩

/-- C1 (amended): once member M holds an enrollment in a *spawned* (non
root) program of R's family, a subsequent `create_new_enrollment` for M
into any program of that family fails with the `AlreadyEnrolled` warning
and inserts nothing; a prior enrollment held in the root program itself is
not detected by the gate. -/
theorem prior_spawned_enrollment_blocks (db : Db) (req : NewEnrollmentRequest)
    (user : User) (program : Program) (e : Enrollment) (p : Program)
    (hu : users_find db req.user_id = Except.ok user)
    (hp : programs_find db req.program_id = Except.ok program)
    (he : e ∈ db.enrollments) (hm : e.member_id = user.id)
    (hfp : p ∈ db.programs) (hpid : p.id = e.program_id)
    (hpar : p.parent_program_id = some program.coalesce_parent_id) :
    create_new_enrollment db req = (db, Except.error WARNING) := by
  have hg := gate_prior_enrollment_blocks db program user e p he hm hfp hpid hpar
  simp only [create_new_enrollment, hu, hp, hg]

/-- Database for the C1 witness: member m enrolled in the spawned peer
r1; enrolling m into the root r is then blocked. -/
def dbC1w : Db :=
  { users := [memberM, coachC1user, coachC2user], coaches := [coachC2],
    programs := [rootR, peerR1], enrollments := [enrollMInPeer],
    fresh_id := "f1", mail_ok := true }

/-- C1 witness request: enroll m into the root program r. -/
def reqC1w : NewEnrollmentRequest := { program_id := "r", user_id := "m", coach_id := "c1" }

/-- C1 witness: the amended theorem applied to a concrete database where
m already holds an enrollment in the spawned peer r1. -/
theorem prior_spawned_enrollment_blocks_witness :
    create_new_enrollment dbC1w reqC1w = (dbC1w, Except.error WARNING) :=
  prior_spawned_enrollment_blocks dbC1w reqC1w memberM rootR enrollMInPeer peerR1
    rfl rfl (by decide) rfl (by decide) rfl rfl

/-- Database for the C2 counterexample/witness: a clean root program and
member, with a mail collaborator that fails. -/
def dbC2 : Db :=
  { users := [memberM, coachC1user], coaches := [],
    programs := [rootR], enrollments := [],
    fresh_id := "f1", mail_ok := false }

/-- C2 request: member m enrolls into the root program r. -/
def reqC2 : NewEnrollmentRequest := { program_id := "r", user_id := "m", coach_id := "c1" }

/-- C2 counterexample: the admission gate passes and the insert succeeds
(the enrollment row is present afterwards), yet because the mail
composition fails, `create_new_enrollment` returns the mail error instead
of the created enrollment — the `?` on the mail call propagates the
failure. -/
theorem mail_failure_fails_result_cex :
    (create_new_enrollment dbC2 reqC2).2 = Except.error MAIL_ERROR
    ∧ (create_new_enrollment dbC2 reqC2).1.enrollments.length = 1 := by
  exact ⟨rfl, rfl⟩

/-- C2 (amended): when the request passes the admission gate and the
insert succeeds but the mail composition fails, the inserted enrollment
is *not* rolled back — the row remains appended — but the operation's
result *is* an error: `create_new_enrollment` returns the mail failure
instead of the created enrollment. -/
theorem mail_failure_keeps_insert (db : Db) (req : NewEnrollmentRequest)
    (user : User) (program : Program) (enr : Enrollment) (coach : User)
    (hu : users_find db req.user_id = Except.ok user)
    (hp : programs_find db req.program_id = Except.ok program)
    (hg : gate_prior_enrollment db program user = Except.ok true)
    (hf : find_enrollment (insert_enrollment db program user) program user = Except.ok enr)
    (hc : users_find (insert_enrollment db program user) program.coach_id = Except.ok coach)
    (hm : db.mail_ok = false) :
    create_new_enrollment db req = (insert_enrollment db program user, Except.error MAIL_ERROR)
    ∧ (insert_enrollment db program user).enrollments
        = db.enrollments ++
          [{ id := db.fresh_id, program_id := program.id, member_id := user.id,
             created_at := 0, updated_at := 0, is_new := true }] := by
  have hmail : create_mail (insert_enrollment db program user) = Except.error MAIL_ERROR := by
    simp [create_mail, insert_enrollment, hm]
  refine ⟨?_, rfl⟩
  simp only [create_new_enrollment, hu, hp, hg, hf, hc, hmail]

/-- C2 witness: the amended theorem applied to the concrete failing-mail
database. -/
theorem mail_failure_keeps_insert_witness :
    create_new_enrollment dbC2 reqC2 = (insert_enrollment dbC2 rootR memberM, Except.error MAIL_ERROR)
    ∧ (insert_enrollment dbC2 rootR memberM).enrollments
        = dbC2.enrollments ++
          [{ id := dbC2.fresh_id, program_id := rootR.id, member_id := memberM.id,
             created_at := 0, updated_at := 0, is_new := true }] :=
  mail_failure_keeps_insert dbC2 reqC2 memberM rootR
    { id := "f1", program_id := "r", member_id := "m",
      created_at := 0, updated_at := 0, is_new := true }
    coachC1user rfl rfl rfl rfl rfl rfl

/-- An inactive root program. -/
def rootInactive : Program :=
  { id := "r", name := "Fitness", description := none, coach_id := "c1",
    active := false, is_parent := true, parent_program_id := none }

/-- An inactive spawned program under `rootInactive`. -/
def childP1 : Program :=
  { id := "p1", name := "Fitness", description := none, coach_id := "c2",
    active := false, is_parent := false, parent_program_id := some "r" }

/-- Database for the C3 counterexample: an inactive root with one
inactive spawned peer. -/
def dbC3 : Db :=
  { users := [], coaches := [], programs := [rootInactive, childP1],
    enrollments := [], fresh_id := "f", mail_ok := true }

/-- C3 request: activate the family rooted at r. -/
def reqC3 : ChangeProgramStateRequest :=
  { id := "r", target_state := ProgramTargetState.ACTIVATE }

/-- C3 counterexample: a first ACTIVATE on the root succeeds, and a
second ACTIVATE with the same target succeeds again instead of failing
with `AlreadyInState` — the bulk update never flips the root's own
`active` flag, which is the only thing `validate_target_state`
inspects. -/
theorem second_same_target_not_rejected_cex :
    (change_program_state dbC3 reqC3).2 = Except.ok 1
    ∧ (change_program_state (change_program_state dbC3 reqC3).1 reqC3).2 = Except.ok 1 := by
  exact ⟨rfl, rfl⟩

/-- After the bulk update, re-reading the requested program returns the
same row when its `parent_program_id` is absent (a root is never matched
by the update filter). -/
theorem programs_find_after_bulk (db : Db) (req : ChangeProgramStateRequest) (p : Program)
    (hfind : programs_find db req.id = Except.ok p)
    (hnone : p.parent_program_id = none) :
    programs_find { db with programs := db.programs.map (fun q =>
        if q.parent_program_id == some req.id then
          { q with active := targetActive req.target_state } else q) } req.id
      = Except.ok p := by
  have hf0 := programs_find_eq_some db req.id p hfind
  have hcomp : ((fun q : Program => q.id == req.id) ∘ (fun q : Program =>
      if q.parent_program_id == some req.id then
        { q with active := targetActive req.target_state } else q))
      = (fun q : Program => q.id == req.id) := by
    funext q
    by_cases h : (q.parent_program_id == some req.id) = true <;>
      simp [Function.comp, h]
  unfold programs_find
  rw [List.find?_map, hcomp, hf0]
  simp [hnone]

/-- When the re-read and the validation both succeed,
`change_program_state` returns the number of rows matched by the bulk
update filter. -/
theorem change_program_state_ok (db : Db) (req : ChangeProgramStateRequest) (p : Program)
    (hfind : programs_find db req.id = Except.ok p)
    (hv : validate_target_state p req = Except.ok true) :
    (change_program_state db req).2
      = Except.ok ((db.programs.filter
          (fun q => q.parent_program_id == some req.id)).length) := by
  simp only [change_program_state, hfind, hv]

/-- C3 (amended): `change_program_state` on a non-root program always
fails without updating anything; on a root whose own `active` flag
already matches the target it fails with `AlreadyInState`; otherwise it
sets `active` on every program whose `parent_program_id` equals the
root's id — and because the root's own flag is never touched, a second
invocation with the same target state succeeds again rather than failing
with `AlreadyInState`. -/
theorem change_program_state_behaviour (db : Db) (req : ChangeProgramStateRequest) (p : Program)
    (hfind : programs_find db req.id = Except.ok p) :
    (p.is_parent = false →
        change_program_state db req = (db, Except.error PROGRAM_STATE_CHANGE_ERROR))
    ∧ (p.is_parent = true → p.active = targetActive req.target_state →
        change_program_state db req = (db, Except.error PROGRAM_SAME_STATE_ERROR))
    ∧ (p.is_parent = true → p.active ≠ targetActive req.target_state →
        ((change_program_state db req).1.programs
            = db.programs.map (fun q =>
                if q.parent_program_id == some req.id then
                  { q with active := targetActive req.target_state } else q)
          ∧ (p.parent_program_id = none →
              ∃ n, (change_program_state (change_program_state db req).1 req).2
                    = Except.ok n))) := by
  refine ⟨?_, ?_, ?_⟩
  · intro hnp
    have hv : validate_target_state p req = Except.error PROGRAM_STATE_CHANGE_ERROR := by
      rw [validate_target_state_eq]; simp [hnp]
    simp only [change_program_state, hfind, hv]
  · intro hpp ha
    have hv : validate_target_state p req = Except.error PROGRAM_SAME_STATE_ERROR := by
      rw [validate_target_state_eq]; simp [hpp, ha]
    simp only [change_program_state, hfind, hv]
  · intro hpp ha
    have hv : validate_target_state p req = Except.ok true := by
      rw [validate_target_state_eq]; simp [hpp, ha]
    have hfst : (change_program_state db req).1
        = { db with programs := db.programs.map (fun q =>
            if q.parent_program_id == some req.id then
              { q with active := targetActive req.target_state } else q) } := by
      simp only [change_program_state, hfind, hv]
    refine ⟨by rw [hfst], ?_⟩
    intro hnone
    have hfind2 : programs_find (change_program_state db req).1 req.id = Except.ok p := by
      rw [hfst]; exact programs_find_after_bulk db req p hfind hnone
    exact ⟨_, change_program_state_ok (change_program_state db req).1 req p hfind2 hv⟩

/-- C3 witness: the amended theorem applied to the concrete inactive
family — the first ACTIVATE updates exactly the children, and the second
ACTIVATE still succeeds. -/
theorem change_program_state_behaviour_witness :
    (change_program_state dbC3 reqC3).1.programs
      = dbC3.programs.map (fun q =>
          if q.parent_program_id == some reqC3.id then
            { q with active := targetActive reqC3.target_state } else q)
    ∧ ∃ n, (change_program_state (change_program_state dbC3 reqC3).1 reqC3).2 = Except.ok n := by
  have h := (change_program_state_behaviour dbC3 reqC3 rootInactive rfl).2.2
    (by decide) (by decide)
  exact ⟨h.1, h.2 rfl⟩

/-- C7: `change_program_state` either leaves the database untouched (on
any failure) or replaces the program table by a map that flips `active`
only on rows whose `parent_program_id` equals the requested root id and
leaves every other row — the root itself included, since its
`parent_program_id` is absent — entirely unchanged; no other table is
modified. -/
theorem change_program_state_frame (db : Db) (req : ChangeProgramStateRequest) :
    ((change_program_state db req).1 = db
      ∨ (change_program_state db req).1.programs
          = db.programs.map (fun q =>
              if q.parent_program_id == some req.id then
                { q with active := targetActive req.target_state } else q))
    ∧ (∀ q ∈ db.programs, q.parent_program_id ≠ some req.id →
        q ∈ (change_program_state db req).1.programs)
    ∧ (change_program_state db req).1.users = db.users
    ∧ (change_program_state db req).1.enrollments = db.enrollments := by
  cases h1 : programs_find db req.id with
  | error e =>
      simp only [change_program_state, h1]
      exact ⟨Or.inl trivial, fun q hq _ => hq, trivial, trivial⟩
  | ok p =>
      cases h2 : validate_target_state p req with
      | error e =>
          simp only [change_program_state, h1, h2]
          exact ⟨Or.inl trivial, fun q hq _ => hq, trivial, trivial⟩
      | ok b =>
          simp only [change_program_state, h1, h2]
          refine ⟨Or.inr trivial, ?_, trivial, trivial⟩
          intro q hq hne
          refine List.mem_map.mpr ⟨q, hq, ?_⟩
          have hb : (q.parent_program_id == some req.id) = false := by
            simp [hne]
          simp [hb]

/-- C7 witness: in the concrete activation scenario, the root row itself
— whose `parent_program_id` is absent — survives the bulk update
unchanged. -/
theorem change_program_state_frame_witness :
    rootInactive ∈ (change_program_state dbC3 reqC3).1.programs :=
  (change_program_state_frame dbC3 reqC3).2.1 rootInactive (by decide) (by decide)

/-- The peer coach c2 enrolled as a member in the root program r. -/
def enrollC2InRoot : Enrollment :=
  { id := "e2", program_id := "r", member_id := "c2",
    created_at := 0, updated_at := 0, is_new := true }

/-- Database for the C4 counterexample: coach c2 once enrolled, as a
member, in the family's root program r. -/
def dbC4 : Db :=
  { users := [coachC2user], coaches := [coachC2], programs := [rootR],
    enrollments := [enrollC2InRoot], fresh_id := "f1", mail_ok := true }

/-- C4 request: associate coach c2 (by email) with the family of r. -/
def reqC4 : AssociateCoachRequest :=
  { program_id := "r", peer_coach_email := "c2@example.com" }

/-- C4 counterexample: the peer coach holds a member enrollment in the
family's *root* program, yet `associate_coach` succeeds and inserts a new
spawned program — `gate_past_member` only scans programs whose
`parent_program_id` equals the family id, which never matches the root
itself (its `parent_program_id` is absent). -/
theorem coach_root_membership_not_detected_cex :
    (associate_coach dbC4 reqC4).2 =
      Except.ok { id := "f1", name := "Fitness", description := some "d", coach_id := "c2",
                  active := true, is_parent := false, parent_program_id := some "r" }
    ∧ (associate_coach dbC4 reqC4).1.programs.length = 2 := by
  exact ⟨rfl, rfl⟩

/-- C4 (amended): `associate_coach` fails with the `CoachWasMember` error
— inserting nothing — whenever the peer coach has held a member
enrollment in a *spawned* program of the family (one whose
`parent_program_id` equals the family id); an enrollment in the family's
root program itself is not detected and does not block the
association. -/
theorem past_spawned_membership_blocks (db : Db) (req : AssociateCoachRequest)
    (coach : Coach) (given : Program) (e : Enrollment) (p : Program)
    (hc : find_coach_by_email db req.peer_coach_email = Except.ok coach)
    (hp : programs_find db req.program_id = Except.ok given)
    (he : e ∈ db.enrollments) (hm : e.member_id = coach.id)
    (hfp : p ∈ db.programs) (hpid : p.id = e.program_id)
    (hpar : p.parent_program_id = some given.coalesce_parent_id) :
    associate_coach db req = (db, Except.error COACH_WAS_A_MEMBER) := by
  have hg := gate_past_member_blocks db given coach e p he hm hfp hpid hpar
  simp only [associate_coach, hc, hp, hg]

/-- A spawned peer program of `rootR` owned by a third coach c3. -/
def peerR2 : Program :=
  { id := "r2", name := "Fitness", description := some "d", coach_id := "c3",
    active := true, is_parent := false, parent_program_id := some "r" }

/-- The peer coach c2 enrolled as a member in the spawned program r2. -/
def enrollC2InPeer : Enrollment :=
  { id := "e3", program_id := "r2", member_id := "c2",
    created_at := 0, updated_at := 0, is_new := true }

/-- Database for the C4 witness: coach c2 enrolled as a member in the
spawned program r2 of the family. -/
def dbC4w : Db :=
  { users := [coachC2user], coaches := [coachC2], programs := [rootR, peerR2],
    enrollments := [enrollC2InPeer], fresh_id := "f1", mail_ok := true }

/-- C4 witness: the amended theorem applied to the concrete database
where c2 was a member of the spawned program r2. -/
theorem past_spawned_membership_blocks_witness :
    associate_coach dbC4w reqC4 = (dbC4w, Except.error COACH_WAS_A_MEMBER) :=
  past_spawned_membership_blocks dbC4w reqC4 coachC2 rootR enrollC2InPeer peerR2
    rfl rfl (by decide) rfl (by decide) rfl rfl
